import Mathlib

/-!
Shallow embedding of `src/app_1/app/static/js/dashboard.js` (the only source
file of the repository): the dashboard client's mutable state (history buffer,
four Chart.js chart objects, status badge), the history recorder, the chart
updater, the clear / time-range actions, the uptime formatter, the traffic
generator and the demo action controls.  JS numbers that carry telemetry are
modelled as `ℚ`; counts and bounds as `ℕ`; a fallible `fetch`/`json()` pair as
`Except String Snapshot`; a possibly-absent DOM element as an `Option`.
-/

set_option autoImplicit false

/-- Fields of `data.system` that the embedded functions read
(`storeSystemHistory`, `updateAllCharts`). -/
structure SystemData where
  cpu_percent : ℚ
  memory_percent : ℚ
  disk_percent : ℚ
  network_bytes_sent : ℚ
  network_bytes_recv : ℚ
  deriving Repr, DecidableEq

/-- Fields of `data.app` read by `storeSystemHistory`.  `cpu_percent` is
optional in the payload (`data.app.cpu_percent || 0`). -/
structure AppData where
  memory_usage_mb : ℚ
  cpu_percent : Option ℚ
  active_connections : ℚ
  deriving Repr, DecidableEq

/-- One `/api/dashboard-data` snapshot. -/
structure Snapshot where
  system : SystemData
  app : AppData
  deriving Repr, DecidableEq

/-- The client-owned record pushed by `storeSystemHistory`. -/
structure HistoryPoint where
  timestamp : String
  cpu : ℚ
  memory : ℚ
  disk : ℚ
  app_memory : ℚ
  app_cpu : ℚ
  connections : ℚ
  network_sent : ℚ
  network_recv : ℚ
  deriving Repr, DecidableEq

/-- A Chart.js chart as the dashboard sees it: `chart.data.labels` and the
`data` array of each entry of `chart.data.datasets`. -/
structure Chart where
  labels : List String
  datasets : List (List ℚ)
  deriving Repr, DecidableEq

/-- The module-level mutable state of `dashboard.js`: `systemHistory`,
`maxHistoryPoints`, the four chart globals (`none` = canvas absent, the setup
function returned early) and the `status-badge` element (`innerHTML`,
`className`; `none` = element absent). -/
structure DashState where
  systemHistory : List HistoryPoint
  maxHistoryPoints : ℕ
  performanceChart : Option Chart
  resourceChart : Option Chart
  appPerformanceChart : Option Chart
  networkChart : Option Chart
  statusBadge : Option (String × String)
  deriving Repr, DecidableEq

/-- The `historyPoint` object literal built by `storeSystemHistory`;
`timestamp` is the wall-clock string `new Date().toLocaleTimeString()`,
passed in explicitly. -/
def mkHistoryPoint (timestamp : String) (data : Snapshot) : HistoryPoint :=
  { timestamp := timestamp
    cpu := data.system.cpu_percent
    memory := data.system.memory_percent
    disk := data.system.disk_percent
    app_memory := data.app.memory_usage_mb
    app_cpu := data.app.cpu_percent.getD 0
    connections := data.app.active_connections
    network_sent := data.system.network_bytes_sent
    network_recv := data.system.network_bytes_recv }

/-- The buffer mutation of `storeSystemHistory`: `systemHistory.push(p)` then
`if (systemHistory.length > maxHistoryPoints) systemHistory.shift()`. -/
def storeStep (bound : ℕ) (hist : List HistoryPoint) (p : HistoryPoint) :
    List HistoryPoint :=
  let pushed := hist ++ [p]
  if bound < pushed.length then pushed.tail else pushed

/-- State-level `storeSystemHistory(data)`. -/
def storeSystemHistory (timestamp : String) (data : Snapshot)
    (st : DashState) : DashState :=
  let p := mkHistoryPoint timestamp data
  { st with systemHistory := storeStep st.maxHistoryPoints st.systemHistory p }

/-- Recording a whole sequence of snapshots, oldest first. -/
def recordAll (st : DashState) (snaps : List (String × Snapshot)) : DashState :=
  snaps.foldl (fun s td => storeSystemHistory td.1 td.2 s) st

/-- A dashboard state with an empty buffer and bound `B`; the charts and the
badge play no role in the history claims. -/
def emptyState (B : ℕ) : DashState :=
  { systemHistory := []
    maxHistoryPoints := B
    performanceChart := none
    resourceChart := none
    appPerformanceChart := none
    networkChart := none
    statusBadge := none }

/-- The helper `formatUptime(seconds)`. -/
def formatUptime (seconds : ℕ) : String :=
  let days := seconds / 86400
  let hours := (seconds % 86400) / 3600
  let minutes := (seconds % 3600) / 60
  if days > 0 then toString days ++ "d " ++ toString hours ++ "h"
  else if hours > 0 then toString hours ++ "h " ++ toString minutes ++ "m"
  else toString minutes ++ "m"

/-- Per-chart body of `clearData`: `chart.data.labels = []` and
`datasets.forEach(dataset => dataset.data = [])`. -/
def clearChart (c : Chart) : Chart :=
  { labels := [], datasets := c.datasets.map (fun _ => []) }

/-- The `clearData()` action: empties `systemHistory` and clears the
performance, app-performance and network charts when present.  The source
never touches `resourceChart` here. -/
def clearData (st : DashState) : DashState :=
  { st with
    systemHistory := []
    performanceChart := st.performanceChart.map clearChart
    appPerformanceChart := st.appPerformanceChart.map clearChart
    networkChart := st.networkChart.map clearChart }

/-- JS `array.slice(-n)` (note that `slice(-0)` is `slice(0)`, the whole
array, while for `0 < n` it keeps the last `n` elements). -/
def sliceNeg (l : List HistoryPoint) (n : ℕ) : List HistoryPoint :=
  if n = 0 then l else l.drop (l.length - n)

/-- The `updateChartTimeRange()` action on the ambient `timeRange` string,
the current bound and buffer; returns the new
`(maxHistoryPoints, systemHistory)` pair.  The `switch` has no default case,
and the trim `systemHistory = systemHistory.slice(-maxHistoryPoints)` runs
only when `systemHistory.length > maxHistoryPoints`. -/
def updateChartTimeRange (timeRange : String) (bound : ℕ)
    (hist : List HistoryPoint) : ℕ × List HistoryPoint :=
  let newBound :=
    if timeRange = "1m" then 20
    else if timeRange = "5m" then 50
    else if timeRange = "15m" then 150
    else bound
  let newHist := if newBound < hist.length then sliceNeg hist newBound else hist
  (newBound, newHist)

/-- The `Math.max(0, 300 - total)` slice of `updateAllCharts`. -/
def availableSlice (data : Snapshot) : ℚ :=
  let total := data.system.cpu_percent + data.system.memory_percent +
    data.system.disk_percent
  max 0 (300 - total)

/-- Refill of the performance chart inside `updateAllCharts`: labels from the
buffer timestamps, datasets 0–3 set to cpu / memory / disk / app_memory. -/
def perfChartRefill (hist : List HistoryPoint) (c : Chart) : Chart :=
  { labels := hist.map (fun h => h.timestamp), datasets := (((c.datasets.set 0 (hist.map (fun h => h.cpu))).set 1 (hist.map (fun h => h.memory))).set 2 (hist.map (fun h => h.disk))).set 3 (hist.map (fun h => h.app_memory)) }

/-- Refill of the app-performance chart: datasets 0–1 set to app_cpu and
connections. -/
def appChartRefill (hist : List HistoryPoint) (c : Chart) : Chart :=
  { labels := hist.map (fun h => h.timestamp), datasets := (c.datasets.set 0 (hist.map (fun h => h.app_cpu))).set 1 (hist.map (fun h => h.connections)) }

/-- Refill of the network chart: datasets 0–1 set to network_sent and
network_recv. -/
def networkChartRefill (hist : List HistoryPoint) (c : Chart) : Chart :=
  { labels := hist.map (fun h => h.timestamp), datasets := (c.datasets.set 0 (hist.map (fun h => h.network_sent))).set 1 (hist.map (fun h => h.network_recv)) }

/-- Rewrite of the resource chart's single dataset from the snapshot:
`[cpu, memory, disk, available]`; the labels are not touched. -/
def resourceChartRefill (data : Snapshot) (c : Chart) : Chart :=
  { c with datasets := c.datasets.set 0 [data.system.cpu_percent, data.system.memory_percent, data.system.disk_percent, availableSlice data] }

/-- The `updateAllCharts(data)` routine: each history chart is refilled when
it exists and the buffer is non-empty; the resource chart is rewritten from
the snapshot whenever it exists. -/
def updateAllCharts (data : Snapshot) (st : DashState) : DashState :=
  let hist := st.systemHistory
  let refill := fun (f : List HistoryPoint → Chart → Chart) (oc : Option Chart) =>
    match oc with
    | some c => if 0 < hist.length then some (f hist c) else some c
    | none => none
  { st with
    performanceChart := refill perfChartRefill st.performanceChart
    resourceChart := st.resourceChart.map (resourceChartRefill data)
    appPerformanceChart := refill appChartRefill st.appPerformanceChart
    networkChart := refill networkChartRefill st.networkChart }

/-- Rendering of the healthy status badge (`innerHTML`, `className`). -/
def healthyBadge : String × String :=
  ("<i class=\"bi bi-check-circle\"></i> System Healthy", "badge bg-success fs-6")

/-- Rendering of the connection-error status badge. -/
def connectionErrorBadge : String × String :=
  ("<i class=\"bi bi-exclamation-triangle\"></i> Connection Error", "badge bg-danger fs-6")

/-- The `updateEnhancedDashboard()` routine, with the combined result of
`await fetch(...)` / `await response.json()` passed as `fetchResult` and the
wall-clock timestamp as `ts`.  A rejection of either await reaches the single
top-level `catch` before any state or DOM write has happened, so the error
arm only rewrites the status badge (when that element exists). -/
def updateEnhancedDashboard (fetchResult : Except String Snapshot)
    (ts : String) (st : DashState) : DashState :=
  match fetchResult with
  | Except.ok data =>
    let st1 := storeSystemHistory ts data st
    let st2 := updateAllCharts data st1
    { st2 with statusBadge := st2.statusBadge.map (fun _ => healthyBadge) }
  | Except.error _ =>
    { st with statusBadge := st.statusBadge.map (fun _ => connectionErrorBadge) }

/-- A demo-action triggering control: `innerHTML` and `disabled`. -/
structure ButtonState where
  innerHTML : String
  disabled : Bool
  deriving Repr, DecidableEq

/-- One demo-action execution: the control's state while the body runs, the
toasts shown as (message, type) pairs, and the control afterwards. -/
structure ActionRun where
  duringBody : ButtonState
  toasts : List (String × String)
  buttonAfter : ButtonState
  deriving Repr, DecidableEq

/-- Result of one `fetch` call: rejected or resolved. -/
def fetchOutcome (failed : Bool) : Except String Unit :=
  if failed then Except.error "fetch rejected" else Except.ok ()

/-- The per-request swallow `fetch(url).catch(() => ...)` of
`generateTraffic`: a rejection becomes a resolution. -/
def caught (r : Except String Unit) : Except String Unit :=
  match r with
  | Except.error _ => Except.ok ()
  | Except.ok a => Except.ok a

/-- `Promise.all`: resolves with all values iff every promise resolves,
rejects if any rejects. -/
def promiseAll : List (Except String Unit) → Except String (List Unit)
  | [] => Except.ok []
  | p :: ps =>
    match p with
    | Except.error e => Except.error e
    | Except.ok a => (promiseAll ps).map (fun rest => a :: rest)

/-- Endpoints hit by `generateTraffic`. -/
inductive Endpoint where
  | health
  | metrics
  | users
  deriving Repr, DecidableEq

/-- Loop body of `generateTraffic`: the requests pushed at iteration `i`
(`/api/health` always, `/api/metrics` when `i % 5 === 0`, `/api/users` when
`i % 10 === 0`). -/
def trafficRequestsAt (i : ℕ) : List Endpoint :=
  [Endpoint.health] ++ (if i % 5 = 0 then [Endpoint.metrics] else []) ++ (if i % 10 = 0 then [Endpoint.users] else [])

/-- All requests pushed by `generateTraffic(count)`, in push order. -/
def trafficRequests (count : ℕ) : List Endpoint :=
  (List.range count).flatMap trafficRequestsAt

/-- Busy label `<span class="loading-spinner"></span> text` set on entry of
the three network demo actions. -/
def spinnerLabel (text : String) : String :=
  "<span class=\"loading-spinner\"></span> " ++ text

/-- The `generateTraffic(count)` action: disable + busy label on entry, fire
the batch (every request individually caught, so `Promise.all` resolves
whatever `fail` says), toast the outcome, and run the `finally` restore. -/
def generateTrafficRun (b : ButtonState) (count : ℕ) (fail : ℕ → Bool) : ActionRun :=
  let originalText := b.innerHTML
  let busy : ButtonState := { innerHTML := spinnerLabel "Generating Traffic...", disabled := true }
  let batch := promiseAll ((List.range (trafficRequests count).length).map (fun j => caught (fetchOutcome (fail j))))
  let toasts := match batch with
    | Except.ok _ => [("Firing " ++ toString count ++ " requests...", "info"), (toString count ++ " requests completed!", "success")]
    | Except.error _ => [("Firing " ++ toString count ++ " requests...", "info"), ("Error generating traffic", "error")]
  { duringBody := busy, toasts := toasts, buttonAfter := { innerHTML := originalText, disabled := false } }

/-- The `simulateWork()` action; `ok` is whether the awaited
`fetch('/api/simulate-work')` + `json()` pair succeeded. -/
def simulateWorkRun (b : ButtonState) (ok : Bool) : ActionRun :=
  let originalText := b.innerHTML
  let busy : ButtonState := { innerHTML := spinnerLabel "Working...", disabled := true }
  let toasts := if ok then [("Work simulation completed!", "success")] else [("Error simulating work", "error")]
  { duringBody := busy, toasts := toasts, buttonAfter := { innerHTML := originalText, disabled := false } }

/-- The `stressTest()` action: five un-caught fetches awaited together; any
rejection makes `Promise.all` reject and reports the whole test failed. -/
def stressTestRun (b : ButtonState) (fail : ℕ → Bool) : ActionRun :=
  let originalText := b.innerHTML
  let busy : ButtonState := { innerHTML := spinnerLabel "Testing...", disabled := true }
  let batch := promiseAll ((List.range 5).map (fun i => fetchOutcome (fail i)))
  let toasts := match batch with
    | Except.ok _ => [("CPU stress test completed!", "warning")]
    | Except.error _ => [("Stress test failed", "error")]
  { duringBody := busy, toasts := toasts, buttonAfter := { innerHTML := originalText, disabled := false } }

/-- The `memoryTest()` action: only toasts and a local temporary array; the
source never references any button here, so the triggering control is
untouched throughout. -/
def memoryTestRun (b : ButtonState) : ActionRun :=
  { duringBody := b, toasts := [("Memory usage will increase temporarily", "info"), ("Memory test completed", "success")], buttonAfter := b }

/-- A concrete history point for witnesses. -/
def samplePoint : HistoryPoint :=
  { timestamp := "10:00:00 AM", cpu := 40, memory := 30, disk := 10, app_memory := 120, app_cpu := 5, connections := 3, network_sent := 1000, network_recv := 2000 }

/-- The performance chart as `setupEnhancedPerformanceChart` creates it:
empty labels, four empty datasets. -/
def perfChartInit : Chart := { labels := [], datasets := [[], [], [], []] }

/-- The app-performance and network charts as their setup functions create
them: empty labels, two empty datasets. -/
def twoSeriesChartInit : Chart := { labels := [], datasets := [[], []] }

/-- The resource chart as `setupEnhancedResourceChart` creates it: four fixed
labels and one dataset `[0, 0, 0, 100]`. -/
def resourceChartInit : Chart := { labels := ["CPU Usage", "Memory Usage", "Disk Usage", "Available"], datasets := [[0, 0, 0, 100]] }

/-- A concrete dashboard state for witnesses: all four charts set up, one
recorded point, healthy badge. -/
def demoState : DashState :=
  { systemHistory := [samplePoint], maxHistoryPoints := 50, performanceChart := some perfChartInit, resourceChart := some resourceChartInit, appPerformanceChart := some twoSeriesChartInit, networkChart := some twoSeriesChartInit, statusBadge := some healthyBadge }

/-- A concrete snapshot for witnesses. -/
def sampleSnapshot : Snapshot :=
  { system := { cpu_percent := 40, memory_percent := 30, disk_percent := 10, network_bytes_sent := 1000, network_bytes_recv := 2000 }, app := { memory_usage_mb := 120, cpu_percent := none, active_connections := 3 } }

/-- A snapshot with all three percentages at 100, for witnesses. -/
def snapFull : Snapshot :=
  { system := { cpu_percent := 100, memory_percent := 100, disk_percent := 100, network_bytes_sent := 0, network_bytes_recv := 0 }, app := { memory_usage_mb := 0, cpu_percent := some 0, active_connections := 0 } }

-- Helper lemmas about `storeStep` --------------------------------------------

theorem storeStep_of_lt (bound : ℕ) (hist : List HistoryPoint)
    (p : HistoryPoint) (h : hist.length < bound) :
    storeStep bound hist p = hist ++ [p] := by
  unfold storeStep
  simp only [List.length_append, List.length_singleton]
  rw [if_neg (by omega)]

theorem storeStep_of_eq (bound : ℕ) (hist : List HistoryPoint)
    (p : HistoryPoint) (h : hist.length = bound) :
    storeStep bound hist p = (hist ++ [p]).tail := by
  unfold storeStep
  simp only [List.length_append, List.length_singleton]
  rw [if_pos (by omega)]

theorem storeStep_eq_drop (bound : ℕ) (hist : List HistoryPoint)
    (p : HistoryPoint) (h : hist.length ≤ bound) :
    storeStep bound hist p = (hist ++ [p]).drop (hist.length + 1 - bound) := by
  rcases Nat.lt_or_ge hist.length bound with hlt | hge
  · rw [storeStep_of_lt bound hist p hlt, Nat.sub_eq_zero_of_le (by omega),
      List.drop_zero]
  · have heq : hist.length = bound := Nat.le_antisymm h hge
    rw [storeStep_of_eq bound hist p heq, ← List.drop_one]
    congr 1
    omega

theorem storeStep_length (bound : ℕ) (hist : List HistoryPoint)
    (p : HistoryPoint) (h : hist.length ≤ bound) :
    (storeStep bound hist p).length = min (hist.length + 1) bound := by
  rw [storeStep_eq_drop bound hist p h, List.length_drop]
  simp only [List.length_append, List.length_singleton]
  omega

/-- Folding `storeStep` from any in-invariant buffer keeps exactly the newest
entries: the fold equals a single `drop` on the concatenated stream. -/
theorem foldl_storeStep_eq_drop (bound : ℕ) (ps : List HistoryPoint) :
    ∀ hist : List HistoryPoint, hist.length ≤ bound →
      ps.foldl (storeStep bound) hist =
        (hist ++ ps).drop (hist.length + ps.length - bound) := by
  induction ps with
  | nil =>
    intro hist h
    simp [Nat.sub_eq_zero_of_le h]
  | cons p ps ih =>
    intro hist h
    have hlen := storeStep_length bound hist p h
    have hle : (storeStep bound hist p).length ≤ bound := by omega
    rw [List.foldl_cons, ih (storeStep bound hist p) hle, hlen,
      storeStep_eq_drop bound hist p h]
    have h1 : hist.length + 1 - bound ≤ (hist ++ [p]).length := by
      simp only [List.length_append, List.length_singleton]; omega
    rw [← List.drop_append_of_le_length h1, List.drop_drop]
    have h2 : hist ++ [p] ++ ps = hist ++ p :: ps := by simp
    rw [h2]
    congr 1
    simp only [List.length_cons]
    omega

-- C7 ---------------------------------------------------------------------

/-- C7: `formatUptime` maps 0 to "0m", 65 to "1m", 3661 to "1h 1m" and
90061 to "1d 1h". -/
theorem formatUptime_examples :
    formatUptime 0 = "0m" ∧ formatUptime 65 = "1m" ∧
    formatUptime 3661 = "1h 1m" ∧ formatUptime 90061 = "1d 1h" :=
  ⟨rfl, rfl, rfl, rfl⟩

-- C6 ---------------------------------------------------------------------

/-- C6 counterexample: 88200 s is 1 day, 0 hours, 30 minutes; the largest two
non-zero units would be "1d 30m", but `formatUptime` prints the zero-valued
hours unit instead ("1d 0h") and drops the minutes. -/
theorem formatUptime_zero_unit_cex :
    formatUptime 88200 = "1d 0h" ∧ formatUptime 88200 ≠ "1d 30m" := by
  refine ⟨rfl, ?_⟩
  decide

/-- C6 (amended): for every non-negative integer input, `formatUptime` prints
the two largest units at the scale of the largest non-zero unit — days and
hours when at least one whole day, else hours and minutes when at least one
whole hour, else minutes alone — and the second unit may be zero-valued. -/
theorem formatUptime_two_largest_units (s : ℕ) :
    formatUptime s =
      if 86400 ≤ s then toString (s / 86400) ++ "d " ++ toString (s % 86400 / 3600) ++ "h"
      else if 3600 ≤ s then toString (s / 3600) ++ "h " ++ toString (s % 3600 / 60) ++ "m"
      else toString (s / 60) ++ "m" := by
  simp only [formatUptime]
  by_cases hd : 86400 ≤ s
  · have h1 : 0 < s / 86400 := by omega
    rw [if_pos h1, if_pos hd]
  · have h1 : ¬ 0 < s / 86400 := by omega
    have hmod : s % 86400 = s := Nat.mod_eq_of_lt (by omega)
    rw [if_neg h1, if_neg hd, hmod]
    by_cases hh : 3600 ≤ s
    · have h2 : 0 < s / 3600 := by omega
      rw [if_pos h2, if_pos hh]
    · have h2 : ¬ 0 < s / 3600 := by omega
      have hm : s % 3600 = s := Nat.mod_eq_of_lt (by omega)
      rw [if_neg h2, if_neg hh, hm]

-- C5 ---------------------------------------------------------------------

/-- C5: the time-range action maps "1m"/"5m"/"15m" to bounds 20/50/150 and
leaves the buffer at its newest `min(existingLength, newBound)` entries;
when the buffer already fits (in particular on any upward bound change from
an in-invariant state) the contents are untouched. -/
theorem updateChartTimeRange_bounds (bound : ℕ) (hist : List HistoryPoint) :
    updateChartTimeRange "1m" bound hist = (20, hist.drop (hist.length - 20)) ∧
    updateChartTimeRange "5m" bound hist = (50, hist.drop (hist.length - 50)) ∧
    updateChartTimeRange "15m" bound hist = (150, hist.drop (hist.length - 150)) ∧
    (updateChartTimeRange "1m" bound hist).2.length = min hist.length 20 ∧
    (updateChartTimeRange "5m" bound hist).2.length = min hist.length 50 ∧
    (updateChartTimeRange "15m" bound hist).2.length = min hist.length 150 ∧
    (hist.length ≤ 20 →
      (updateChartTimeRange "1m" bound hist).2 = hist ∧
      (updateChartTimeRange "5m" bound hist).2 = hist ∧
      (updateChartTimeRange "15m" bound hist).2 = hist) := by
  have key : ∀ n : ℕ, n ≠ 0 →
      (if n < hist.length then sliceNeg hist n else hist) =
        hist.drop (hist.length - n) := by
    intro n hn
    by_cases h : n < hist.length
    · rw [if_pos h]
      unfold sliceNeg
      rw [if_neg hn]
    · rw [if_neg h, Nat.sub_eq_zero_of_le (by omega), List.drop_zero]
  have h1 : updateChartTimeRange "1m" bound hist = (20, hist.drop (hist.length - 20)) := by
    show (20, if 20 < hist.length then sliceNeg hist 20 else hist) = (20, hist.drop (hist.length - 20))
    rw [key 20 (by norm_num)]
  have h5 : updateChartTimeRange "5m" bound hist = (50, hist.drop (hist.length - 50)) := by
    show (50, if 50 < hist.length then sliceNeg hist 50 else hist) = (50, hist.drop (hist.length - 50))
    rw [key 50 (by norm_num)]
  have h15 : updateChartTimeRange "15m" bound hist = (150, hist.drop (hist.length - 150)) := by
    show (150, if 150 < hist.length then sliceNeg hist 150 else hist) = (150, hist.drop (hist.length - 150))
    rw [key 150 (by norm_num)]
  refine ⟨h1, h5, h15, ?_, ?_, ?_, ?_⟩
  · rw [h1, List.length_drop]; omega
  · rw [h5, List.length_drop]; omega
  · rw [h15, List.length_drop]; omega
  · intro hle
    refine ⟨?_, ?_, ?_⟩
    · rw [h1]; rw [Nat.sub_eq_zero_of_le (by omega), List.drop_zero]
    · rw [h5]; rw [Nat.sub_eq_zero_of_le (by omega), List.drop_zero]
    · rw [h15]; rw [Nat.sub_eq_zero_of_le (by omega), List.drop_zero]

/-- C5 witness: with bound 50 and a one-point buffer, "1m" shrinks the bound
to 20 keeping the point, and "15m" grows it to 150 leaving the buffer as is. -/
theorem updateChartTimeRange_bounds_witness :
    updateChartTimeRange "1m" 50 [samplePoint] = (20, [samplePoint]) ∧
    (updateChartTimeRange "15m" 50 [samplePoint]).2 = [samplePoint] := by
  have h := updateChartTimeRange_bounds 50 [samplePoint]
  exact ⟨h.1, (h.2.2.2.2.2.2 (by decide)).2.2⟩

-- C10 --------------------------------------------------------------------

/-- C10: for an ambient `timeRange` other than "1m", "5m", "15m", the action
leaves the bound and (from any in-invariant buffer) the history contents
unchanged. -/
theorem updateChartTimeRange_unrecognized_frame (tr : String) (bound : ℕ)
    (hist : List HistoryPoint) (h1 : tr ≠ "1m") (h5 : tr ≠ "5m")
    (h15 : tr ≠ "15m") (hinv : hist.length ≤ bound) :
    updateChartTimeRange tr bound hist = (bound, hist) := by
  simp only [updateChartTimeRange, if_neg h1, if_neg h5, if_neg h15]
  rw [if_neg (by omega)]

/-- C10 witness: the unrecognized value "2m" with bound 50 and a one-point
buffer changes nothing. -/
theorem updateChartTimeRange_unrecognized_frame_witness :
    updateChartTimeRange "2m" 50 [samplePoint] = (50, [samplePoint]) :=
  updateChartTimeRange_unrecognized_frame "2m" 50 [samplePoint]
    (by decide) (by decide) (by decide) (by decide)

-- C1 ---------------------------------------------------------------------

theorem recordAll_state (snaps : List (String × Snapshot)) :
    ∀ st : DashState, recordAll st snaps =
      { st with systemHistory := (snaps.map (fun td => mkHistoryPoint td.1 td.2)).foldl (storeStep st.maxHistoryPoints) st.systemHistory } := by
  induction snaps with
  | nil => intro st; rfl
  | cons td snaps ih =>
    intro st
    show recordAll (storeSystemHistory td.1 td.2 st) snaps = _
    rw [ih (storeSystemHistory td.1 td.2 st)]
    rfl

/-- C1: starting from an empty buffer with bound `B`, recording any sequence
of `N` snapshots through `storeSystemHistory` leaves exactly the newest
`min(N, B)` derived points, in insertion order (the sequence with its oldest
entries dropped); in particular the buffer length never exceeds `B`. -/
theorem storeSystemHistory_fifo_bounded (B : ℕ) (snaps : List (String × Snapshot)) :
    (recordAll (emptyState B) snaps).systemHistory =
      (snaps.map (fun td => mkHistoryPoint td.1 td.2)).drop (snaps.length - B) ∧
    (recordAll (emptyState B) snaps).systemHistory.length = min snaps.length B := by
  have hfold := foldl_storeStep_eq_drop B (snaps.map (fun td => mkHistoryPoint td.1 td.2)) [] (by simp)
  simp only [List.nil_append, List.length_nil, Nat.zero_add] at hfold
  have h1 : (recordAll (emptyState B) snaps).systemHistory =
      (snaps.map (fun td => mkHistoryPoint td.1 td.2)).foldl (storeStep B) [] := by
    rw [recordAll_state snaps (emptyState B)]
    rfl
  constructor
  · rw [h1, hfold, List.length_map]
  · rw [h1, hfold, List.length_drop, List.length_map]
    omega

-- C2 ---------------------------------------------------------------------

/-- C2 counterexample: from the freshly set-up dashboard state, `clearData`
leaves the resource chart exactly as it was — its single dataset still has
data length 4 (and its label array length 4), not 0. -/
theorem clearData_resource_not_cleared_cex :
    (clearData demoState).resourceChart = some resourceChartInit ∧
    resourceChartInit.datasets.map List.length = [4] ∧
    resourceChartInit.labels.length = 4 :=
  ⟨rfl, rfl, rfl⟩

theorem clearChart_map_spec (oc : Option Chart) (c : Chart)
    (hc : oc.map clearChart = some c) :
    c.labels = [] ∧ ∀ d ∈ c.datasets, d = [] := by
  cases oc with
  | none => simp at hc
  | some c0 =>
    simp only [Option.map_some'] at hc
    cases hc
    refine ⟨rfl, ?_⟩
    intro d hd
    rcases List.mem_map.mp hd with ⟨a, _, ha⟩
    exact ha.symm

/-- C2 (amended): `clearData` empties the history buffer and sets the label
array and every dataset data array to length 0 for the performance,
app-performance and network charts; the resource chart (and the bound) are
left unchanged. -/
theorem clearData_empties_three_charts (st : DashState) :
    (clearData st).systemHistory = [] ∧
    (clearData st).resourceChart = st.resourceChart ∧
    (clearData st).maxHistoryPoints = st.maxHistoryPoints ∧
    (∀ c, (clearData st).performanceChart = some c → c.labels = [] ∧ ∀ d ∈ c.datasets, d = []) ∧
    (∀ c, (clearData st).appPerformanceChart = some c → c.labels = [] ∧ ∀ d ∈ c.datasets, d = []) ∧
    (∀ c, (clearData st).networkChart = some c → c.labels = [] ∧ ∀ d ∈ c.datasets, d = []) :=
  ⟨rfl, rfl, rfl,
    fun c hc => clearChart_map_spec st.performanceChart c hc,
    fun c hc => clearChart_map_spec st.appPerformanceChart c hc,
    fun c hc => clearChart_map_spec st.networkChart c hc⟩

/-- C2 witness: on the concrete set-up state, `clearData` empties the history
and the performance chart it produces has empty labels and only empty
datasets. -/
theorem clearData_empties_three_charts_witness :
    (clearData demoState).systemHistory = [] ∧
    ((clearChart perfChartInit).labels = [] ∧ ∀ d ∈ (clearChart perfChartInit).datasets, d = []) := by
  have h := clearData_empties_three_charts demoState
  exact ⟨h.1, h.2.2.2.1 (clearChart perfChartInit) rfl⟩

-- C3 ---------------------------------------------------------------------

/-- C3: when the fetch (or JSON parse) of the main refresh rejects, the
history buffer, the bound and all four charts are exactly as before the
call, and the status badge (when its element exists) switches to the
Connection Error rendering. -/
theorem updateEnhancedDashboard_error_frame (e ts : String) (st : DashState)
    (b : String × String) (hb : st.statusBadge = some b) :
    (updateEnhancedDashboard (Except.error e) ts st).systemHistory = st.systemHistory ∧
    (updateEnhancedDashboard (Except.error e) ts st).maxHistoryPoints = st.maxHistoryPoints ∧
    (updateEnhancedDashboard (Except.error e) ts st).performanceChart = st.performanceChart ∧
    (updateEnhancedDashboard (Except.error e) ts st).resourceChart = st.resourceChart ∧
    (updateEnhancedDashboard (Except.error e) ts st).appPerformanceChart = st.appPerformanceChart ∧
    (updateEnhancedDashboard (Except.error e) ts st).networkChart = st.networkChart ∧
    (updateEnhancedDashboard (Except.error e) ts st).statusBadge = some connectionErrorBadge := by
  refine ⟨rfl, rfl, rfl, rfl, rfl, rfl, ?_⟩
  show st.statusBadge.map (fun _ => connectionErrorBadge) = some connectionErrorBadge
  rw [hb]
  rfl

/-- C3 witness: a failed refresh on the concrete state keeps the history and
flips the badge to Connection Error. -/
theorem updateEnhancedDashboard_error_frame_witness :
    (updateEnhancedDashboard (Except.error "network down") "t" demoState).systemHistory = demoState.systemHistory ∧
    (updateEnhancedDashboard (Except.error "network down") "t" demoState).statusBadge = some connectionErrorBadge := by
  have h := updateEnhancedDashboard_error_frame "network down" "t" demoState healthyBadge rfl
  exact ⟨h.1, h.2.2.2.2.2.2⟩

-- C4 ---------------------------------------------------------------------

/-- C4 counterexample: `memoryTest` never disables its triggering control —
with a concrete enabled button, the control stays enabled during the whole
body and is untouched afterwards, refuting "every demo action listed ...
disables its triggering control on entry" for the memory test. -/
theorem memoryTest_no_disable_cex :
    (memoryTestRun { innerHTML := "Memory Test", disabled := false }).duringBody.disabled = false ∧
    (memoryTestRun { innerHTML := "Memory Test", disabled := false }).buttonAfter = { innerHTML := "Memory Test", disabled := false } :=
  ⟨rfl, rfl⟩

/-- C4 (amended): `generateTraffic`, `simulateWork` and `stressTest` disable
their triggering control on entry and, on every exit path — success or
failure — restore the original label and leave the control enabled; the
memory test never touches its control at all. -/
theorem demo_actions_restore_controls (b : ButtonState) (ok : Bool)
    (fail : ℕ → Bool) (count : ℕ) :
    ((simulateWorkRun b ok).duringBody.disabled = true ∧
      (simulateWorkRun b ok).buttonAfter = { innerHTML := b.innerHTML, disabled := false }) ∧
    ((stressTestRun b fail).duringBody.disabled = true ∧
      (stressTestRun b fail).buttonAfter = { innerHTML := b.innerHTML, disabled := false }) ∧
    ((generateTrafficRun b count fail).duringBody.disabled = true ∧
      (generateTrafficRun b count fail).buttonAfter = { innerHTML := b.innerHTML, disabled := false }) ∧
    (memoryTestRun b).duringBody = b ∧ (memoryTestRun b).buttonAfter = b :=
  ⟨⟨rfl, rfl⟩, ⟨rfl, rfl⟩, ⟨rfl, rfl⟩, rfl, rfl⟩

-- C9 ---------------------------------------------------------------------

/-- C9: whenever the resource chart exists, `updateAllCharts` rewrites its
dataset 0 to `[cpu, memory, disk, max(0, 300 - (cpu + memory + disk))]`; the
available slice is never negative, and it evaluates to 220 for
cpu=40/mem=30/disk=10 and to 0 for cpu=mem=disk=100. -/
theorem resourceChart_available_slice (data : Snapshot) (st : DashState)
    (c : Chart) (hc : st.resourceChart = some c) :
    (updateAllCharts data st).resourceChart = some { c with datasets := c.datasets.set 0 [data.system.cpu_percent, data.system.memory_percent, data.system.disk_percent, max 0 (300 - (data.system.cpu_percent + data.system.memory_percent + data.system.disk_percent))] } ∧
    0 ≤ availableSlice data ∧
    availableSlice sampleSnapshot = 220 ∧
    availableSlice snapFull = 0 := by
  refine ⟨?_, le_max_left 0 _, ?_, ?_⟩
  · show st.resourceChart.map (resourceChartRefill data) = _
    rw [hc]
    rfl
  · show max (0 : ℚ) (300 - (40 + 30 + 10)) = 220
    norm_num [max_def]
  · show max (0 : ℚ) (300 - (100 + 100 + 100)) = 0
    norm_num [max_def]

/-- C9 witness: on the concrete state and the 40/30/10 snapshot, the resource
chart's dataset becomes `[40, 30, 10, 220]`. -/
theorem resourceChart_available_slice_witness :
    (updateAllCharts sampleSnapshot demoState).resourceChart = some { labels := ["CPU Usage", "Memory Usage", "Disk Usage", "Available"], datasets := [[40, 30, 10, 220]] } := by
  rw [(resourceChart_available_slice sampleSnapshot demoState resourceChartInit rfl).1]
  norm_num [resourceChartInit, sampleSnapshot, max_def]

-- C8 ---------------------------------------------------------------------

theorem trafficRequests_succ (n : ℕ) :
    trafficRequests (n + 1) = trafficRequests n ++ trafficRequestsAt n := by
  unfold trafficRequests
  rw [List.range_succ, List.flatMap_append]
  simp

theorem trafficRequestsAt_count_health (i : ℕ) :
    (trafficRequestsAt i).count Endpoint.health = 1 := by
  by_cases h5 : i % 5 = 0 <;> by_cases h10 : i % 10 = 0 <;>
    simp [trafficRequestsAt, h5, h10]

theorem trafficRequestsAt_count_metrics (i : ℕ) :
    (trafficRequestsAt i).count Endpoint.metrics = if i % 5 = 0 then 1 else 0 := by
  by_cases h5 : i % 5 = 0 <;> by_cases h10 : i % 10 = 0 <;>
    simp [trafficRequestsAt, h5, h10]

theorem trafficRequestsAt_count_users (i : ℕ) :
    (trafficRequestsAt i).count Endpoint.users = if i % 10 = 0 then 1 else 0 := by
  by_cases h5 : i % 5 = 0 <;> by_cases h10 : i % 10 = 0 <;>
    simp [trafficRequestsAt, h5, h10]

theorem trafficRequests_count_health (count : ℕ) :
    (trafficRequests count).count Endpoint.health = count := by
  induction count with
  | zero => rfl
  | succ n ih =>
    rw [trafficRequests_succ, List.count_append, ih, trafficRequestsAt_count_health]

theorem trafficRequests_count_metrics (count : ℕ) :
    (trafficRequests count).count Endpoint.metrics =
      ((List.range count).filter (fun i => i % 5 = 0)).length := by
  induction count with
  | zero => rfl
  | succ n ih =>
    rw [trafficRequests_succ, List.count_append, ih, trafficRequestsAt_count_metrics,
      List.range_succ, List.filter_append, List.length_append]
    by_cases h : n % 5 = 0 <;> simp [h]

theorem trafficRequests_count_users (count : ℕ) :
    (trafficRequests count).count Endpoint.users =
      ((List.range count).filter (fun i => i % 10 = 0)).length := by
  induction count with
  | zero => rfl
  | succ n ih =>
    rw [trafficRequests_succ, List.count_append, ih, trafficRequestsAt_count_users,
      List.range_succ, List.filter_append, List.length_append]
    by_cases h : n % 10 = 0 <;> simp [h]

theorem promiseAll_caught (fail : ℕ → Bool) (js : List ℕ) :
    promiseAll (js.map (fun j => caught (fetchOutcome (fail j)))) =
      Except.ok (js.map (fun _ => ())) := by
  induction js with
  | nil => rfl
  | cons j js ih =>
    have hc : caught (fetchOutcome (fail j)) = Except.ok () := by
      cases hfj : fail j <;> rfl
    simp only [List.map_cons, promiseAll, hc, ih, Except.map]

/-- C8: `generateTraffic(count)` pushes one health request per iteration, one
metrics request for exactly the iterations with `i % 5 == 0` and one users
request for exactly those with `i % 10 == 0` (for count = 25 that is 25
health, 5 metrics at i = 0,5,10,15,20 and 3 users at i = 0,10,20), and since
every request is individually caught, awaiting them all together resolves
whatever subset of the fetches rejects. -/
theorem generateTraffic_batch (count : ℕ) (fail : ℕ → Bool) :
    (trafficRequests count).count Endpoint.health = count ∧
    (trafficRequests count).count Endpoint.metrics =
      ((List.range count).filter (fun i => i % 5 = 0)).length ∧
    (trafficRequests count).count Endpoint.users =
      ((List.range count).filter (fun i => i % 10 = 0)).length ∧
    (trafficRequests 25).count Endpoint.health = 25 ∧
    (List.range 25).filter (fun i => i % 5 = 0) = [0, 5, 10, 15, 20] ∧
    (List.range 25).filter (fun i => i % 10 = 0) = [0, 10, 20] ∧
    (trafficRequests 25).count Endpoint.metrics = 5 ∧
    (trafficRequests 25).count Endpoint.users = 3 ∧
    promiseAll ((List.range (trafficRequests count).length).map
        (fun j => caught (fetchOutcome (fail j)))) =
      Except.ok ((List.range (trafficRequests count).length).map (fun _ => ())) := by
  refine ⟨trafficRequests_count_health count, trafficRequests_count_metrics count,
    trafficRequests_count_users count, ?_, ?_, ?_, ?_, ?_,
    promiseAll_caught fail (List.range (trafficRequests count).length)⟩
  · decide
  · decide
  · decide
  · decide
  · decide
